import Mathlib

/-!
Verification of the downbot media-downloader pipeline.

Shallow embedding of the Python sources (`main.py`, `storage_manager.py`) of
the downbot media-downloader service, together with theorems settling the
specification claims about it.

External collaborators (the yt-dlp extraction engine, the filesystem, and the
S3-compatible storage backend) are modelled as an explicit environment record
whose fields describe the outcome of each external call; the embedded pipeline
is a pure function of that environment, mirroring the Python control flow
line by line.
-/

/-! ## storage_manager.py : `_sanitize_filename_for_metadata`

The Python function applies three steps:
1. `re.sub(r'[^\x00-\x7F]+', '_', filename)` — replace every maximal run of
   non-ASCII characters by a single underscore;
2. `re.sub(r'_{2,}', '_', ...)` — collapse every run of two or more
   underscores to a single underscore;
3. `.strip('_')` — remove leading and trailing underscores.
-/

/-- A character matched by the character class `[\x00-\x7F]` (code point at
most `0x7F`). -/
def isAsciiChar (c : Char) : Bool := c.toNat ≤ 0x7F

/-- State machine for `re.sub(r'[^\x00-\x7F]+', '_', s)`: the Boolean records
whether the previous character belonged to a non-ASCII run (in which case the
run's single replacement underscore has already been emitted). -/
def replaceNonAsciiAux : Bool → List Char → List Char
  | _, [] => []
  | inRun, c :: cs =>
    if isAsciiChar c then c :: replaceNonAsciiAux false cs
    else if inRun then replaceNonAsciiAux true cs
    else '_' :: replaceNonAsciiAux true cs

/-- `re.sub(r'[^\x00-\x7F]+', '_', s)` on a character list. -/
def replaceNonAsciiRuns (l : List Char) : List Char := replaceNonAsciiAux false l

/-- State machine for `re.sub(r'_{2,}', '_', s)`: the Boolean records whether
the previous character was an underscore (in which case further underscores of
the same run are dropped).  Replacing every run of `≥ 2` underscores by one
underscore is exactly collapsing every maximal underscore run to length one. -/
def collapseAux : Bool → List Char → List Char
  | _, [] => []
  | prevU, c :: cs =>
    if c = '_' then
      if prevU then collapseAux true cs else '_' :: collapseAux true cs
    else c :: collapseAux false cs

/-- `re.sub(r'_{2,}', '_', s)` on a character list. -/
def collapseUnderscoreRuns (l : List Char) : List Char := collapseAux false l

/-- Python `str.strip('_')`: drop leading and trailing underscores. -/
def stripUnderscores (l : List Char) : List Char :=
  ((l.dropWhile (fun c => c == '_')).reverse.dropWhile (fun c => c == '_')).reverse

/-- `AsyncWasabiStorageManager._sanitize_filename_for_metadata`
(storage_manager.py, lines 101-109). -/
def _sanitize_filename_for_metadata (filename : String) : String :=
  ⟨stripUnderscores (collapseUnderscoreRuns (replaceNonAsciiRuns filename.data))⟩

/-! ## storage_manager.py : `_upload_file_sync` (lines 111-146) -/

/-- `filename.split('.')[-1] if '.' in filename else 'bin'`: the substring
after the last dot when the filename contains a dot, otherwise `"bin"`. -/
def file_extension_of (filename : String) : String :=
  if filename.data.contains '.' then
    ⟨(filename.data.reverse.takeWhile (fun c => c != '.')).reverse⟩
  else "bin"

/-- `file_key = f"{uuid.uuid4()}.{file_extension}"`: the storage key built
from the freshly generated uuid and the original filename's extension. -/
def upload_key (generated_uuid filename : String) : String :=
  generated_uuid ++ "." ++ file_extension_of filename

/-- The object metadata attached on upload.  (The Python code also attaches an
`upload_timestamp` drawn from a second uuid; it is not read anywhere and is
omitted.) -/
structure UploadMeta where
  original_filename : String
  deriving DecidableEq

/-- `AsyncWasabiStorageManager._upload_file_sync`: computes the fresh key and
the sanitized-filename metadata, then calls `put_object`; a `ClientError` from
the backend (modelled by `putError = some e`) is re-raised as the generic
upload failure `Exception(f"Failed to upload file: {e}")`. -/
def _upload_file_sync (generated_uuid filename : String) (putError : Option String) :
    Except String (String × UploadMeta) :=
  let file_key := upload_key generated_uuid filename
  match putError with
  | some e => Except.error ("Failed to upload file: " ++ e)
  | none => Except.ok (file_key, ⟨_sanitize_filename_for_metadata filename⟩)

/-! ## storage_manager.py : `_get_file_url_sync` (lines 159-186)

The storage backend is modelled by the list of keys of the objects it holds.
`head_object` on a key that is not held raises a `ClientError` whose error
code reports the missing object (`NoSuchKey`); on a held key it succeeds. -/

/-- Outcome of `s3_client.head_object`. -/
inductive HeadResult where
  | ok : HeadResult
  | clientError (code : String) : HeadResult
  deriving DecidableEq

/-- `s3_client.head_object(Bucket=..., Key=key)` against a backend holding
`keys`. -/
def head_object (keys : List String) (key : String) : HeadResult :=
  if key ∈ keys then HeadResult.ok else HeadResult.clientError "NoSuchKey"

/-- The parameters of the presigned URL issued by
`generate_presigned_url('get_object', Params={...}, ExpiresIn=expiration)`. -/
structure PresignedUrl where
  key : String
  responseContentDisposition : String
  responseContentType : String
  expiresIn : Nat
  deriving DecidableEq

/-- Outcome of `_get_file_url_sync`: a URL, or one of the two distinct
exceptions it raises. -/
inductive PresignResult where
  | url (u : PresignedUrl)
  | notFoundError (msg : String)
  | genericError (msg : String)
  deriving DecidableEq

/-- `AsyncWasabiStorageManager._get_file_url_sync`: first `head_object`, then
presign.  A `ClientError` with code `NoSuchKey` becomes
`Exception(f"File not found: {file_key}")`; any other `ClientError` becomes
`Exception(f"Failed to generate URL: {e}")`. -/
def _get_file_url_sync (keys : List String) (file_key : String) (expiration : Nat) :
    PresignResult :=
  match head_object keys file_key with
  | HeadResult.clientError code =>
    if code = "NoSuchKey" then PresignResult.notFoundError ("File not found: " ++ file_key)
    else PresignResult.genericError ("Failed to generate URL: " ++ code)
  | HeadResult.ok =>
    PresignResult.url
      { key := file_key
        responseContentDisposition := "attachment"
        responseContentType := "application/octet-stream"
        expiresIn := expiration }

/-- The default value of the `expiration` parameter of `_get_file_url_sync`
and of its async wrapper `get_file_url` (`expiration: int = 3600`). -/
def get_file_url_default_expiration : Nat := 3600

/-! ## main.py : playlist probe (`_is_playlist_sync`, lines 71-90) -/

/-- Outcome of the metadata-only probe `ydl.extract_info(url, download=False)`
run by `_is_playlist_sync`: whether the call raised, whether the returned
`info` is a dict, its `_type` field, and whether it has a list-valued
`entries` field. -/
structure ProbeInfo where
  raised : Bool
  isDict : Bool
  typ : Option String
  hasEntriesList : Bool
  deriving DecidableEq

/-- `_is_playlist_sync`: an exception from the probe returns `False`;
otherwise a dict whose `_type` is `'playlist'` or `'multi_video'`, or which
has a list-valued `'entries'` field, is a playlist. -/
def _is_playlist_sync (p : ProbeInfo) : Bool :=
  if p.raised then false
  else if p.isDict && (p.typ == some "playlist" || p.typ == some "multi_video") then true
  else if p.isDict && p.hasEntriesList then true
  else false

/-! ## main.py : download step (`_download_media_sync`, lines 99-125) -/

/-- The fields of the yt-dlp info dict read by the pipeline.  `none` in a
field models the dict lacking that key. -/
structure Info where
  ext : Option String
  title : Option String
  deriving DecidableEq

/-- Outcome of `ydl.extract_info(url, download=True)`: whether it raised, and
otherwise its info dict (`none` models a falsy result such as `None`). -/
structure ExtractOutcome where
  raised : Bool
  info : Option Info
  deriving DecidableEq

/-- `_download_media_sync`: an engine exception returns `(None, None)`; a
falsy `info` returns `(None, None)`; otherwise the expected output path is
`f"{temp_path}.{ext}"` with `ext = info.get('ext', 'mp4')`.  The `(None,
None)` pair is modelled as `none`. -/
def _download_media_sync (o : ExtractOutcome) (temp_path : String) :
    Option (Info × String) :=
  if o.raised then none
  else
    match o.info with
    | none => none
    | some info => some (info, temp_path ++ "." ++ info.ext.getD "mp4")

/-! ## main.py : response construction and pipeline (`downloader_tool`) -/

/-- A JSON value appearing in the tool's response dict. -/
inductive JVal where
  | s (v : String)
  | b (v : Bool)
  | null
  deriving DecidableEq

/-- The response dict serialized by `json.dumps`, with its insertion order. -/
abbrev Response := List (String × JVal)

/-- Look up a field of a response dict. -/
def respField (r : Response) (k : String) : Option JVal :=
  (r.find? (fun p => p.1 == k)).map (fun p => p.2)

/-- The field names of a response dict, in order. -/
def respKeys (r : Response) : List String := r.map (fun p => p.1)

/-- Response for a playlist URL (main.py, lines 188-196). -/
def playlist_response : Response :=
  [("success", JVal.b false),
   ("message", JVal.s "❌ Playlists are not supported. Please provide a single media URL."),
   ("download_url", JVal.null),
   ("type", JVal.null)]

/-- Response when the download step yields nothing (lines 202-209). -/
def no_media_response : Response :=
  [("success", JVal.b false),
   ("message", JVal.s "❌ No media found at the provided URL."),
   ("download_url", JVal.null),
   ("type", JVal.null)]

/-- Response when the expected file is absent after download (lines 218-225). -/
def download_failed_response : Response :=
  [("success", JVal.b false),
   ("message", JVal.s "❌ Failed to download the media file."),
   ("download_url", JVal.null),
   ("type", JVal.null)]

/-- Response built by the outer exception handler (lines 267-275). -/
def error_response (e : String) : Response :=
  [("success", JVal.b false),
   ("message", JVal.s ("❌ Error during download: " ++ e)),
   ("download_url", JVal.null),
   ("type", JVal.null)]

/-- Success response (lines 251-262): only `success` and `message`. -/
def success_response (message : String) : Response :=
  [("success", JVal.b true), ("message", JVal.s message)]

/-- `content_type = 'video/mp4' if ext in ['mp4', 'webm'] else f'audio/{ext}'`
(main.py, line 232). -/
def classify_content_type (ext : String) : String :=
  if ext = "mp4" ∨ ext = "webm" then "video/mp4" else "audio/" ++ ext

/-- `media_type = "Video" if content_type.startswith('video') else "Audio"`
(main.py, line 249). -/
def media_type_of (content_type : String) : String :=
  if "video".data.isPrefixOf content_type.data then "Video" else "Audio"

/-- Python's `f"{n:,}"` thousands grouping: insert a comma before every digit
whose reversed position is a positive multiple of three. -/
def commaEveryThreeRev : List Char → Nat → List Char
  | [], _ => []
  | c :: cs, n =>
    if n % 3 = 0 ∧ n ≠ 0 then ',' :: c :: commaEveryThreeRev cs (n + 1)
    else c :: commaEveryThreeRev cs (n + 1)

/-- Python `f"{n:,}"`. -/
def pyThousands (n : Nat) : String :=
  ⟨(commaEveryThreeRev (toString n).data.reverse 0).reverse⟩

/-- Abstract rendering of the presigned URL returned by the storage backend:
the concrete query string is produced by boto3; the pipeline only embeds it in
the response message, so a canonical rendering of its parameters suffices. -/
def url_text (u : PresignedUrl) : String :=
  "https://s3.wasabisys.com/" ++ u.key
    ++ "?response-content-disposition=" ++ u.responseContentDisposition
    ++ "&response-content-type=" ++ u.responseContentType
    ++ "&expires-in=" ++ toString u.expiresIn

/-- The success message f-string of main.py, lines 253-261. -/
def success_message (media_type ext title : String) (size : Nat)
    (download_url file_key : String) : String :=
  "✅ **Download Complete!**\n"
    ++ "🎬 **Type**: " ++ media_type ++ " (" ++ ext ++ ")\n"
    ++ "📁 **Title**: " ++ title ++ "\n"
    ++ "📊 **Size**: " ++ pyThousands size ++ " bytes\n"
    ++ "🔗 **Download**: [Click here to download](" ++ download_url ++ ")\n"
    ++ "⏰ **Link expires in**: 24 hours\n"
    ++ "🆔 **Reference**: " ++ file_key ++ "\n"

/-- Behaviour of the external collaborators during one pipeline run: the
probe's outcome, the extraction outcome, whether the expected file is present
(`os.path.exists`), whether reading it raises, its size, whether `put_object`
raises, the uuid generated for the storage key, and whether `os.remove`
succeeds during cleanup. -/
structure Env where
  probe : ProbeInfo
  extract : ExtractOutcome
  fileExists : Bool
  readError : Option String
  contentSize : Nat
  uploadError : Option String
  uploadUuid : String
  removeOk : Bool
  deriving DecidableEq

/-- Observable outcome of one `downloader_tool` run.  `tempFileExistsAfter`
reports whether the job's temp file still exists after the run has returned
and any scheduled cleanup task has executed.  The `used*` fields record the
values the pipeline computed along the way (`none` when the run never reached
the corresponding line). -/
structure RunTrace where
  response : Response
  downloadCalls : Nat
  uploadCalls : Nat
  cleanupScheduled : Bool
  tempFileExistsAfter : Bool
  usedTitle : Option String
  usedExt : Option String
  contentType : Option String
  tempFilePath : Option String
  uploadedKey : Option String
  presignRequestedExpiration : Option Nat
  presigned : Option PresignedUrl

/-- `downloader_tool` (main.py, lines 175-275): playlist rejection →
download → existence check → read → classification → upload → presign →
response, with the outer `except` handler turning any raised exception into
`error_response` and cleanup scheduled only on the success path (line 246). -/
def downloader_tool (env : Env) (unique_id : String) : RunTrace :=
  let temp_path := "/tmp/" ++ unique_id
  if _is_playlist_sync env.probe then
    { response := playlist_response
      downloadCalls := 0, uploadCalls := 0
      cleanupScheduled := false, tempFileExistsAfter := false
      usedTitle := none, usedExt := none, contentType := none
      tempFilePath := none, uploadedKey := none
      presignRequestedExpiration := none, presigned := none }
  else
    match _download_media_sync env.extract temp_path with
    | none =>
      { response := no_media_response
        downloadCalls := 1, uploadCalls := 0
        cleanupScheduled := false, tempFileExistsAfter := false
        usedTitle := none, usedExt := none, contentType := none
        tempFilePath := none, uploadedKey := none
        presignRequestedExpiration := none, presigned := none }
    | some (info, temp_file_path) =>
      let title := info.title.getD "Unknown"
      let ext := info.ext.getD "mp4"
      if !env.fileExists then
        { response := download_failed_response
          downloadCalls := 1, uploadCalls := 0
          cleanupScheduled := false, tempFileExistsAfter := false
          usedTitle := some title, usedExt := some ext, contentType := none
          tempFilePath := some temp_file_path, uploadedKey := none
          presignRequestedExpiration := none, presigned := none }
      else
        match env.readError with
        | some err =>
          { response := error_response err
            downloadCalls := 1, uploadCalls := 0
            cleanupScheduled := false, tempFileExistsAfter := true
            usedTitle := some title, usedExt := some ext, contentType := none
            tempFilePath := some temp_file_path, uploadedKey := none
            presignRequestedExpiration := none, presigned := none }
        | none =>
          let content_type := classify_content_type ext
          match _upload_file_sync env.uploadUuid (title ++ "." ++ ext) env.uploadError with
          | Except.error err =>
            { response := error_response err
              downloadCalls := 1, uploadCalls := 1
              cleanupScheduled := false, tempFileExistsAfter := true
              usedTitle := some title, usedExt := some ext, contentType := some content_type
              tempFilePath := some temp_file_path, uploadedKey := none
              presignRequestedExpiration := none, presigned := none }
          | Except.ok (file_key, _meta) =>
            match _get_file_url_sync [file_key] file_key 86400 with
            | PresignResult.url pu =>
              { response := success_response (success_message (media_type_of content_type)
                  ext title env.contentSize (url_text pu) file_key)
                downloadCalls := 1, uploadCalls := 1
                cleanupScheduled := true, tempFileExistsAfter := !env.removeOk
                usedTitle := some title, usedExt := some ext, contentType := some content_type
                tempFilePath := some temp_file_path, uploadedKey := some file_key
                presignRequestedExpiration := some 86400, presigned := some pu }
            | PresignResult.notFoundError err =>
              { response := error_response err
                downloadCalls := 1, uploadCalls := 1
                cleanupScheduled := false, tempFileExistsAfter := true
                usedTitle := some title, usedExt := some ext, contentType := some content_type
                tempFilePath := some temp_file_path, uploadedKey := some file_key
                presignRequestedExpiration := some 86400, presigned := none }
            | PresignResult.genericError err =>
              { response := error_response err
                downloadCalls := 1, uploadCalls := 1
                cleanupScheduled := false, tempFileExistsAfter := true
                usedTitle := some title, usedExt := some ext, contentType := some content_type
                tempFilePath := some temp_file_path, uploadedKey := some file_key
                presignRequestedExpiration := some 86400, presigned := none }

/-! ## Predicates and concrete run environments used by the theorems -/

/-- No two adjacent characters are both underscores. -/
abbrev NoAdjUnderscores (l : List Char) : Prop :=
  List.Chain' (fun a b => ¬(a = '_' ∧ b = '_')) l

/-- Probe outcome of an ordinary single-video URL: the probe succeeds, the
info dict has no `_type` field and no `entries` list. -/
def probe_single : ProbeInfo := ⟨false, true, none, false⟩

/-- A fully successful run: single video, file present, read succeeds,
upload succeeds, `os.remove` succeeds. -/
def env_success : Env :=
  { probe := probe_single
    extract := ⟨false, some ⟨some "mp4", some "Clip"⟩⟩
    fileExists := true, readError := none, contentSize := 5
    uploadError := none, uploadUuid := "u1", removeOk := true }

/-- A run where the download succeeds and the file exists, but reading it
raises an `OSError`. -/
def env_read_failure : Env :=
  { probe := probe_single
    extract := ⟨false, some ⟨some "mp4", some "Song"⟩⟩
    fileExists := true, readError := some "Permission denied"
    contentSize := 0, uploadError := none, uploadUuid := "k1", removeOk := true }

/-- A run where the extraction engine raises (e.g. a network error). -/
def env_engine_raises : Env :=
  { probe := probe_single
    extract := ⟨true, none⟩
    fileExists := false, readError := none, contentSize := 0
    uploadError := none, uploadUuid := "u2", removeOk := true }

/-- A run where extraction technically succeeds but yields no usable
metadata (a falsy info dict). -/
def env_no_metadata : Env :=
  { probe := probe_single
    extract := ⟨false, none⟩
    fileExists := false, readError := none, contentSize := 0
    uploadError := none, uploadUuid := "u3", removeOk := true }

/-- A run whose probe reports `_type == 'playlist'`. -/
def env_playlist : Env :=
  { probe := ⟨false, true, some "playlist", false⟩
    extract := ⟨false, none⟩
    fileExists := false, readError := none, contentSize := 0
    uploadError := none, uploadUuid := "u4", removeOk := true }

/-- A run whose playlist probe itself raises. -/
def env_probe_raised : Env :=
  { probe := ⟨true, true, some "playlist", true⟩
    extract := ⟨false, none⟩
    fileExists := false, readError := none, contentSize := 0
    uploadError := none, uploadUuid := "u5", removeOk := true }

/-! ## Helper lemmas about the pipeline -/

theorem downloader_tool_no_media (env : Env) (u : String)
    (hp : _is_playlist_sync env.probe = false)
    (hdm : _download_media_sync env.extract ("/tmp/" ++ u) = none) :
    downloader_tool env u =
      { response := no_media_response
        downloadCalls := 1, uploadCalls := 0
        cleanupScheduled := false, tempFileExistsAfter := false
        usedTitle := none, usedExt := none, contentType := none
        tempFilePath := none, uploadedKey := none
        presignRequestedExpiration := none, presigned := none } := by
  unfold downloader_tool
  simp [hp, hdm]

theorem downloader_tool_playlist (env : Env) (u : String)
    (hp : _is_playlist_sync env.probe = true) :
    downloader_tool env u =
      { response := playlist_response
        downloadCalls := 0, uploadCalls := 0
        cleanupScheduled := false, tempFileExistsAfter := false
        usedTitle := none, usedExt := none, contentType := none
        tempFilePath := none, uploadedKey := none
        presignRequestedExpiration := none, presigned := none } := by
  unfold downloader_tool
  simp [hp]

theorem downloader_tool_file_missing (env : Env) (u : String) (i : Info) (fp : String)
    (hp : _is_playlist_sync env.probe = false)
    (hdm : _download_media_sync env.extract ("/tmp/" ++ u) = some (i, fp))
    (hfe : env.fileExists = false) :
    downloader_tool env u =
      { response := download_failed_response
        downloadCalls := 1, uploadCalls := 0
        cleanupScheduled := false, tempFileExistsAfter := false
        usedTitle := some (i.title.getD "Unknown"), usedExt := some (i.ext.getD "mp4")
        contentType := none
        tempFilePath := some fp, uploadedKey := none
        presignRequestedExpiration := none, presigned := none } := by
  unfold downloader_tool
  simp [hp, hdm, hfe]

theorem downloader_tool_read_error (env : Env) (u : String) (i : Info) (fp err : String)
    (hp : _is_playlist_sync env.probe = false)
    (hdm : _download_media_sync env.extract ("/tmp/" ++ u) = some (i, fp))
    (hfe : env.fileExists = true)
    (hre : env.readError = some err) :
    downloader_tool env u =
      { response := error_response err
        downloadCalls := 1, uploadCalls := 0
        cleanupScheduled := false, tempFileExistsAfter := true
        usedTitle := some (i.title.getD "Unknown"), usedExt := some (i.ext.getD "mp4")
        contentType := none
        tempFilePath := some fp, uploadedKey := none
        presignRequestedExpiration := none, presigned := none } := by
  unfold downloader_tool
  simp [hp, hdm, hfe, hre]

theorem downloader_tool_upload_error (env : Env) (u : String) (i : Info) (fp e : String)
    (hp : _is_playlist_sync env.probe = false)
    (hdm : _download_media_sync env.extract ("/tmp/" ++ u) = some (i, fp))
    (hfe : env.fileExists = true)
    (hre : env.readError = none)
    (hue : env.uploadError = some e) :
    downloader_tool env u =
      { response := error_response ("Failed to upload file: " ++ e)
        downloadCalls := 1, uploadCalls := 1
        cleanupScheduled := false, tempFileExistsAfter := true
        usedTitle := some (i.title.getD "Unknown"), usedExt := some (i.ext.getD "mp4")
        contentType := some (classify_content_type (i.ext.getD "mp4"))
        tempFilePath := some fp, uploadedKey := none
        presignRequestedExpiration := none, presigned := none } := by
  unfold downloader_tool
  simp [hp, hdm, hfe, hre, _upload_file_sync, hue]

theorem downloader_tool_success (env : Env) (u : String) (i : Info) (fp : String)
    (hp : _is_playlist_sync env.probe = false)
    (hdm : _download_media_sync env.extract ("/tmp/" ++ u) = some (i, fp))
    (hfe : env.fileExists = true)
    (hre : env.readError = none)
    (hue : env.uploadError = none) :
    downloader_tool env u =
      (let title := i.title.getD "Unknown"
       let ext := i.ext.getD "mp4"
       let content_type := classify_content_type ext
       let file_key := upload_key env.uploadUuid (title ++ "." ++ ext)
       let pu : PresignedUrl := ⟨file_key, "attachment", "application/octet-stream", 86400⟩
       { response := success_response (success_message (media_type_of content_type)
           ext title env.contentSize (url_text pu) file_key)
         downloadCalls := 1, uploadCalls := 1
         cleanupScheduled := true, tempFileExistsAfter := !env.removeOk
         usedTitle := some title, usedExt := some ext, contentType := some content_type
         tempFilePath := some fp, uploadedKey := some file_key
         presignRequestedExpiration := some 86400, presigned := some pu }) := by
  unfold downloader_tool
  simp [hp, hdm, hfe, hre, _upload_file_sync, hue, _get_file_url_sync, head_object]

/-! ## Claim C1 -/

/-- C1 (counterexample): a run in which the download succeeds and the temp
file exists, but reading it raises, returns the failure response without
attempting cleanup, and the temp file is left behind — refuting the claim
that every failed run still attempts best-effort deletion. -/
theorem c1_counterexample :
    (downloader_tool env_read_failure "job1").tempFileExistsAfter = true ∧
    (downloader_tool env_read_failure "job1").cleanupScheduled = false ∧
    respField (downloader_tool env_read_failure "job1").response "success"
      = some (JVal.b false) :=
  ⟨rfl, rfl, rfl⟩

/-- C1 (amended): cleanup is scheduled only by the success path; whenever a
run schedules cleanup its response is the success response, and once that
cleanup has executed the temp file exists exactly when `os.remove` failed.
Failed runs never schedule cleanup. -/
theorem c1_cleanup_only_on_success (env : Env) (u : String)
    (h : (downloader_tool env u).cleanupScheduled = true) :
    respField (downloader_tool env u).response "success" = some (JVal.b true) ∧
    (downloader_tool env u).tempFileExistsAfter = !env.removeOk := by
  cases hp : _is_playlist_sync env.probe with
  | true => rw [downloader_tool_playlist env u hp] at h; simp at h
  | false =>
    rcases hdm : _download_media_sync env.extract ("/tmp/" ++ u) with _ | ⟨i, fp⟩
    · rw [downloader_tool_no_media env u hp hdm] at h; simp at h
    · cases hfe : env.fileExists with
      | false => rw [downloader_tool_file_missing env u i fp hp hdm hfe] at h; simp at h
      | true =>
        rcases hre : env.readError with _ | err
        · rcases hue : env.uploadError with _ | e
          · rw [downloader_tool_success env u i fp hp hdm hfe hre hue]
            exact ⟨rfl, rfl⟩
          · rw [downloader_tool_upload_error env u i fp e hp hdm hfe hre hue] at h
            simp at h
        · rw [downloader_tool_read_error env u i fp err hp hdm hfe hre] at h
          simp at h

/-- C1 (witness): on a concrete fully successful run, cleanup is scheduled,
the response is the success response, and after cleanup the temp file no
longer exists. -/
theorem c1_witness :
    (downloader_tool env_success "job").cleanupScheduled = true ∧
    respField (downloader_tool env_success "job").response "success" = some (JVal.b true) ∧
    (downloader_tool env_success "job").tempFileExistsAfter = false := by
  refine ⟨rfl, (c1_cleanup_only_on_success env_success "job" rfl).1, ?_⟩
  have h := (c1_cleanup_only_on_success env_success "job" rfl).2
  simpa using h

/-! ## Claim C2 -/

/-- Every response of `downloader_tool` is either the two-field success
response or a four-field failure response with null `download_url`/`type`. -/
theorem downloader_tool_response_cases (env : Env) (u : String) :
    (∃ m, (downloader_tool env u).response = success_response m) ∨
    (∃ m, (downloader_tool env u).response =
      [("success", JVal.b false), ("message", JVal.s m),
       ("download_url", JVal.null), ("type", JVal.null)]) := by
  cases hp : _is_playlist_sync env.probe with
  | true => exact Or.inr ⟨_, by rw [downloader_tool_playlist env u hp]; exact rfl⟩
  | false =>
    rcases hdm : _download_media_sync env.extract ("/tmp/" ++ u) with _ | ⟨i, fp⟩
    · exact Or.inr ⟨_, by rw [downloader_tool_no_media env u hp hdm]; exact rfl⟩
    · cases hfe : env.fileExists with
      | false =>
        exact Or.inr ⟨_, by
          rw [downloader_tool_file_missing env u i fp hp hdm hfe]; exact rfl⟩
      | true =>
        rcases hre : env.readError with _ | err
        · rcases hue : env.uploadError with _ | e
          · exact Or.inl ⟨_, by
              rw [downloader_tool_success env u i fp hp hdm hfe hre hue]⟩
          · exact Or.inr ⟨_, by
              rw [downloader_tool_upload_error env u i fp e hp hdm hfe hre hue]; exact rfl⟩
        · exact Or.inr ⟨_, by
            rw [downloader_tool_read_error env u i fp err hp hdm hfe hre]; exact rfl⟩

/-- C2 (counterexample): a concrete fully successful run returns
`success = true`, yet its response has no `download_url` field and no `type`
field at all — refuting the claim that a successful response contains a
non-null `download_url` and a `type` of `"audio"`/`"video"`. -/
theorem c2_counterexample :
    respField (downloader_tool env_success "job2").response "success" = some (JVal.b true) ∧
    respField (downloader_tool env_success "job2").response "download_url" = none ∧
    respField (downloader_tool env_success "job2").response "type" = none :=
  ⟨rfl, rfl, rfl⟩

/-- C2 (amended): a successful response consists of exactly the fields
`success` and `message` (the link and media type appear only inside the
message text), while every failure response has exactly the fields `success`,
`message`, `download_url`, `type` with the latter two null. -/
theorem c2_response_shape (env : Env) (u : String) :
    (respField (downloader_tool env u).response "success" = some (JVal.b true) →
      respKeys (downloader_tool env u).response = ["success", "message"]) ∧
    (respField (downloader_tool env u).response "success" = some (JVal.b false) →
      respKeys (downloader_tool env u).response
          = ["success", "message", "download_url", "type"] ∧
      respField (downloader_tool env u).response "download_url" = some JVal.null ∧
      respField (downloader_tool env u).response "type" = some JVal.null) := by
  rcases downloader_tool_response_cases env u with ⟨m, hm⟩ | ⟨m, hm⟩ <;> rw [hm]
  · refine ⟨fun _ => rfl, fun h => absurd h ?_⟩
    simp [respField, success_response]
  · refine ⟨fun h => absurd h ?_, fun _ => ⟨rfl, rfl, rfl⟩⟩
    simp [respField]

/-- C2 (witness): the amended shape evaluated on a concrete successful run
and on a concrete failing run. -/
theorem c2_witness :
    respKeys (downloader_tool env_success "jw").response = ["success", "message"] ∧
    respKeys (downloader_tool env_no_metadata "jw").response
      = ["success", "message", "download_url", "type"] := by
  exact ⟨(c2_response_shape env_success "jw").1 rfl,
    ((c2_response_shape env_no_metadata "jw").2 rfl).1⟩

/-! ## Claim C3 -/

/-- C3 (counterexample): the run where the extraction engine raises and the
run where extraction returns no metadata produce identical responses — both
the "no media found" message — refuting the claim that the two cases have
distinguishable user-visible messages. -/
theorem c3_counterexample :
    (downloader_tool env_engine_raises "job3").response
      = (downloader_tool env_no_metadata "job3").response ∧
    (downloader_tool env_engine_raises "job3").response = no_media_response :=
  ⟨rfl, rfl⟩

/-- C3 (amended): for every non-playlist URL, both the raised-engine case and
the empty-metadata case are collapsed by `_download_media_sync` into the same
`(None, None)` result, so `downloader_tool` returns the identical
`success = false` "No media found" response in both cases. -/
theorem c3_raised_and_empty_same_response (env : Env) (u : String)
    (hp : _is_playlist_sync env.probe = false)
    (h : env.extract.raised = true ∨ env.extract.info = none) :
    (downloader_tool env u).response = no_media_response := by
  have hdm : _download_media_sync env.extract ("/tmp/" ++ u) = none := by
    unfold _download_media_sync
    rcases h with h | h
    · simp [h]
    · simp [h]
    
  rw [downloader_tool_no_media env u hp hdm]

/-- C3 (witness): the amended statement evaluated on the two concrete runs. -/
theorem c3_witness :
    (downloader_tool env_engine_raises "jw3").response = no_media_response ∧
    (downloader_tool env_no_metadata "jw3").response = no_media_response :=
  ⟨c3_raised_and_empty_same_response env_engine_raises "jw3" rfl (Or.inl rfl),
   c3_raised_and_empty_same_response env_no_metadata "jw3" rfl (Or.inr rfl)⟩

/-! ## Claim C4 -/

/-- C4: a URL whose probe reports a collection (`_type` of
`'playlist'`/`'multi_video'` or a list-valued `entries`) is rejected with the
playlist-rejection response and zero download and upload calls; a URL whose
probe raises is treated as not-a-playlist and the pipeline proceeds to the
download step. -/
theorem c4_playlist_rejection (env : Env) (u : String) :
    (_is_playlist_sync env.probe = true →
      (downloader_tool env u).response = playlist_response ∧
      (downloader_tool env u).downloadCalls = 0 ∧
      (downloader_tool env u).uploadCalls = 0) ∧
    (env.probe.raised = true →
      _is_playlist_sync env.probe = false ∧
      (downloader_tool env u).downloadCalls = 1) := by
  constructor
  · intro h
    unfold downloader_tool
    simp [h]
  · intro hr
    have hp : _is_playlist_sync env.probe = false := by
      simp [_is_playlist_sync, hr]
    refine ⟨hp, ?_⟩
    rcases hdm : _download_media_sync env.extract ("/tmp/" ++ u) with _ | ⟨i, fp⟩
    · rw [downloader_tool_no_media env u hp hdm]
    · cases hfe : env.fileExists with
      | false => rw [downloader_tool_file_missing env u i fp hp hdm hfe]
      | true =>
        rcases hre : env.readError with _ | err
        · rcases hue : env.uploadError with _ | e
          · rw [downloader_tool_success env u i fp hp hdm hfe hre hue]
          · rw [downloader_tool_upload_error env u i fp e hp hdm hfe hre hue]
        · rw [downloader_tool_read_error env u i fp err hp hdm hfe hre]

/-- C4 (witness): a concrete playlist probe is rejected with zero download
and upload calls, and a concrete raising probe still reaches the download
step. -/
theorem c4_witness :
    (downloader_tool env_playlist "j4").response = playlist_response ∧
    (downloader_tool env_playlist "j4").downloadCalls = 0 ∧
    (downloader_tool env_playlist "j4").uploadCalls = 0 ∧
    (downloader_tool env_probe_raised "j4").downloadCalls = 1 := by
  obtain ⟨h1, h2, h3⟩ := (c4_playlist_rejection env_playlist "j4").1 rfl
  exact ⟨h1, h2, h3, ((c4_playlist_rejection env_probe_raised "j4").2 rfl).2⟩

/-! ## Claim C7 -/

/-- C7 (counterexample): the presign operation's default expiration is not
86400 seconds — `_get_file_url_sync` (and its wrapper `get_file_url`)
declares `expiration: int = 3600`. -/
theorem c7_counterexample : ¬ (get_file_url_default_expiration = 86400) := by
  decide

/-- C7 (amended): the pipeline explicitly requests the presigned link with
expiration 86400 seconds, and every presigned URL it issues carries
`ExpiresIn = 86400`; the presign operation's own default expiration, used
only when no expiration is passed, is 3600 seconds. -/
theorem c7_expiration (env : Env) (u : String) (pu : PresignedUrl)
    (h : (downloader_tool env u).presigned = some pu) :
    pu.expiresIn = 86400 ∧
    (downloader_tool env u).presignRequestedExpiration = some 86400 ∧
    get_file_url_default_expiration = 3600 := by
  cases hp : _is_playlist_sync env.probe with
  | true => rw [downloader_tool_playlist env u hp] at h; simp at h
  | false =>
    rcases hdm : _download_media_sync env.extract ("/tmp/" ++ u) with _ | ⟨i, fp⟩
    · rw [downloader_tool_no_media env u hp hdm] at h; simp at h
    · cases hfe : env.fileExists with
      | false => rw [downloader_tool_file_missing env u i fp hp hdm hfe] at h; simp at h
      | true =>
        rcases hre : env.readError with _ | err
        · rcases hue : env.uploadError with _ | e
          · rw [downloader_tool_success env u i fp hp hdm hfe hre hue] at h ⊢
            simp only [Option.some.injEq] at h
            subst h
            exact ⟨rfl, rfl, rfl⟩
          · rw [downloader_tool_upload_error env u i fp e hp hdm hfe hre hue] at h
            simp at h
        · rw [downloader_tool_read_error env u i fp err hp hdm hfe hre] at h
          simp at h

/-- C7 (witness): a concrete successful run issues a presigned URL whose
`ExpiresIn` is 86400. -/
theorem c7_witness :
    (downloader_tool env_success "j7").presignRequestedExpiration = some 86400 ∧
    get_file_url_default_expiration = 3600 := by
  have h := c7_expiration env_success "j7"
    ⟨upload_key "u1" "Clip.mp4", "attachment", "application/octet-stream", 86400⟩ rfl
  exact ⟨h.2.1, h.2.2⟩

/-! ## Claim C10 -/

/-- C10: metadata lacking an `ext` field defaults to `'mp4'` — the expected
file path becomes the temp prefix followed by `.mp4` and the classified
content type is `video/mp4` — and metadata lacking a `title` field defaults
to `'Unknown'`. -/
theorem c10_defaults (env : Env) (u : String) (i : Info)
    (hext : i.ext = none) (htitle : i.title = none)
    (hex : env.extract = ⟨false, some i⟩)
    (hp : _is_playlist_sync env.probe = false)
    (hfe : env.fileExists = true)
    (hre : env.readError = none) :
    _download_media_sync env.extract ("/tmp/" ++ u)
      = some (i, "/tmp/" ++ u ++ "." ++ "mp4") ∧
    (downloader_tool env u).usedExt = some "mp4" ∧
    (downloader_tool env u).usedTitle = some "Unknown" ∧
    (downloader_tool env u).tempFilePath = some ("/tmp/" ++ u ++ "." ++ "mp4") ∧
    (downloader_tool env u).contentType = some "video/mp4" := by
  have hdm : _download_media_sync env.extract ("/tmp/" ++ u)
      = some (i, "/tmp/" ++ u ++ "." ++ "mp4") := by
    rw [hex]
    simp [_download_media_sync, hext]
  refine ⟨hdm, ?_⟩
  rcases hue : env.uploadError with _ | e
  · rw [downloader_tool_success env u i ("/tmp/" ++ u ++ "." ++ "mp4") hp hdm hfe hre hue]
    simp [hext, htitle, classify_content_type]
  · rw [downloader_tool_upload_error env u i ("/tmp/" ++ u ++ "." ++ "mp4") e hp hdm hfe hre hue]
    simp [hext, htitle, classify_content_type]

/-- C10 (witness): the defaults evaluated on a concrete run whose info dict
has neither `ext` nor `title`. -/
theorem c10_witness :
    (downloader_tool
      { probe := probe_single
        extract := ⟨false, some ⟨none, none⟩⟩
        fileExists := true, readError := none, contentSize := 3
        uploadError := none, uploadUuid := "u10", removeOk := true } "j10").usedExt
      = some "mp4" ∧
    (downloader_tool
      { probe := probe_single
        extract := ⟨false, some ⟨none, none⟩⟩
        fileExists := true, readError := none, contentSize := 3
        uploadError := none, uploadUuid := "u10", removeOk := true } "j10").usedTitle
      = some "Unknown" := by
  have h := c10_defaults
    { probe := probe_single
      extract := ⟨false, some ⟨none, none⟩⟩
      fileExists := true, readError := none, contentSize := 3
      uploadError := none, uploadUuid := "u10", removeOk := true } "j10"
    ⟨none, none⟩ rfl rfl rfl rfl rfl rfl
  exact ⟨h.2.1, h.2.2.1⟩

/-! ## Claim C5 -/

/-- C5: `_get_file_url_sync` first confirms the object exists; a key the
backend does not hold fails with the distinct not-found error, never the
generic URL-generation error, and a held key yields a URL whose parameters
force attachment disposition and the generic binary content type, with the
requested time limit. -/
theorem c5_presign_checks_existence (keys : List String) (k : String) (e : Nat) :
    (k ∉ keys →
      _get_file_url_sync keys k e = PresignResult.notFoundError ("File not found: " ++ k)) ∧
    (k ∈ keys →
      _get_file_url_sync keys k e =
        PresignResult.url ⟨k, "attachment", "application/octet-stream", e⟩) := by
  constructor <;> intro h <;> simp [_get_file_url_sync, head_object, h]

/-- C5 (witness): presigning a never-uploaded key fails with the not-found
error; presigning an uploaded key succeeds with the forced-download
parameters. -/
theorem c5_witness :
    _get_file_url_sync ["a.mp4"] "b.mp3" 60
      = PresignResult.notFoundError ("File not found: " ++ "b.mp3") ∧
    _get_file_url_sync ["a.mp4"] "a.mp4" 86400
      = PresignResult.url ⟨"a.mp4", "attachment", "application/octet-stream", 86400⟩ :=
  ⟨(c5_presign_checks_existence ["a.mp4"] "b.mp3" 60).1 (by decide),
   (c5_presign_checks_existence ["a.mp4"] "a.mp4" 86400).2 (by decide)⟩

/-! ## Claim C8 -/

theorem isPrefixOf_append_self (l r : List Char) : l.isPrefixOf (l ++ r) = true := by
  induction l with
  | nil => simp [List.isPrefixOf]
  | cons a as ih => simp [List.isPrefixOf, ih]

/-- C8: the classification table maps the video-like extensions `mp4` and
`webm` to a video MIME type, every other extension `ext` to
`'audio/' ++ ext`, and the classified type always starts with `video/` or
`audio/`. -/
theorem c8_classification (ext : String) :
    ((ext = "mp4" ∨ ext = "webm") → classify_content_type ext = "video/mp4") ∧
    (¬(ext = "mp4" ∨ ext = "webm") → classify_content_type ext = "audio/" ++ ext) ∧
    ("video/".data.isPrefixOf (classify_content_type ext).data = true ∨
     "audio/".data.isPrefixOf (classify_content_type ext).data = true) := by
  by_cases h : ext = "mp4" ∨ ext = "webm"
  · refine ⟨fun _ => ?_, fun hn => absurd h hn, Or.inl ?_⟩
    · simp [classify_content_type, h]
    · simp [classify_content_type, h]
  · refine ⟨fun hh => absurd hh h, fun _ => ?_, Or.inr ?_⟩
    · simp [classify_content_type, h]
    · have : classify_content_type ext = "audio/" ++ ext := by
        simp [classify_content_type, h]
      rw [this, String.data_append]
      exact isPrefixOf_append_self "audio/".data ext.data

/-- C8 (witness): classification evaluated on a video-like and on an audio
extension. -/
theorem c8_witness :
    classify_content_type "webm" = "video/mp4" ∧
    classify_content_type "mp3" = "audio/" ++ "mp3" ∧
    "audio/".data.isPrefixOf (classify_content_type "opus").data = true := by
  refine ⟨(c8_classification "webm").1 (Or.inr rfl),
    (c8_classification "mp3").2.1 (by decide), ?_⟩
  rcases (c8_classification "opus").2.2 with h | h
  · exact absurd h (by decide)
  · exact h

/-! ## Claim C9 -/

theorem append_dot_injective : ∀ (a b r s : List Char),
    '.' ∉ a → '.' ∉ b → a ++ '.' :: r = b ++ '.' :: s → a = b := by
  intro a
  induction a with
  | nil =>
    intro b r s _ hb h
    cases b with
    | nil => rfl
    | cons d bs =>
      simp only [List.nil_append, List.cons_append, List.cons.injEq] at h
      exact absurd (h.1 ▸ List.mem_cons_self d bs) (h.1 ▸ hb)
  | cons c as ih =>
    intro b r s ha hb h
    cases b with
    | nil =>
      simp only [List.nil_append, List.cons_append, List.cons.injEq] at h
      exact absurd (h.1 ▸ List.mem_cons_self c as) fun hm => ha (h.1 ▸ hm)
    | cons d bs =>
      simp only [List.cons_append, List.cons.injEq] at h
      have : as = bs :=
        ih bs r s (fun hm => ha (List.mem_cons_of_mem c hm))
          (fun hm => hb (List.mem_cons_of_mem d hm)) h.2
      rw [h.1, this]

theorem dot_not_mem_file_extension (f : String) : '.' ∉ (file_extension_of f).data := by
  unfold file_extension_of
  split
  · intro hmem
    have hmem' : '.' ∈ f.data.reverse.takeWhile (fun c => c != '.') := by
      simpa using hmem
    have := List.mem_takeWhile_imp hmem'
    simp at this
  · decide

/-- C9: the storage key is the freshly generated uuid joined with the
original filename's extension only — two uploads with distinct generated
uuids always get distinct keys (regardless of the filenames), the key
depends on the filename only through its extension, and the sanitized
original filename travels in the metadata, not in the key. -/
theorem c9_upload_key_fresh (u₁ u₂ f₁ f₂ : String)
    (hu₁ : '.' ∉ u₁.data) (hu₂ : '.' ∉ u₂.data) (hne : u₁ ≠ u₂) :
    upload_key u₁ f₁ ≠ upload_key u₂ f₂ ∧
    (file_extension_of f₁ = file_extension_of f₂ →
      upload_key u₁ f₁ = upload_key u₁ f₂) ∧
    _upload_file_sync u₁ f₁ none
      = Except.ok (upload_key u₁ f₁, ⟨_sanitize_filename_for_metadata f₁⟩) := by
  refine ⟨?_, ?_, rfl⟩
  · intro heq
    apply hne
    have hdata := congrArg String.data heq
    rw [upload_key, upload_key, String.data_append, String.data_append,
      String.data_append, String.data_append] at hdata
    simp only [List.append_assoc] at hdata
    have h₁ : ("." : String).data ++ (file_extension_of f₁).data
        = '.' :: (file_extension_of f₁).data := rfl
    have h₂ : ("." : String).data ++ (file_extension_of f₂).data
        = '.' :: (file_extension_of f₂).data := rfl
    rw [h₁, h₂] at hdata
    have := append_dot_injective u₁.data u₂.data _ _ hu₁ hu₂ hdata
    exact String.ext this
  · intro hext
    rw [upload_key, upload_key, hext]

/-- C9 (witness): two concrete uploads with distinct uuids produce distinct
keys even for filenames sharing an extension, and the metadata carries the
sanitized filename. -/
theorem c9_witness :
    upload_key "aaa" "héllo.mp3" ≠ upload_key "bbb" "x.mp3" ∧
    upload_key "aaa" "héllo.mp3" = upload_key "aaa" "x.mp3" ∧
    _upload_file_sync "aaa" "héllo.mp3" none
      = Except.ok (upload_key "aaa" "héllo.mp3", ⟨"h_llo.mp3"⟩) := by
  have h := c9_upload_key_fresh "aaa" "bbb" "héllo.mp3" "x.mp3"
    (by decide) (by decide) (by decide)
  refine ⟨h.1, ?_, ?_⟩
  · have h' := c9_upload_key_fresh "aaa" "bbb" "héllo.mp3" "x.mp3"
      (by decide) (by decide) (by decide)
    exact h'.2.1 (by decide)
  · rw [h.2.2]
    have : _sanitize_filename_for_metadata "héllo.mp3" = "h_llo.mp3" := by decide
    rw [this]

/-! ## Claim C6 : properties of the filename sanitizer -/

theorem replaceNonAsciiAux_all_ascii (l : List Char) :
    ∀ b, (replaceNonAsciiAux b l).all isAsciiChar = true := by
  have hu : isAsciiChar '_' = true := by decide
  induction l with
  | nil => intro b; rfl
  | cons c cs ih =>
    intro b
    by_cases h : isAsciiChar c
    · simp [replaceNonAsciiAux, h, ih]
    · cases b
      · simp [replaceNonAsciiAux, h, hu, ih]
      · simp [replaceNonAsciiAux, h, ih]

theorem replaceNonAsciiAux_id (l : List Char) (hall : l.all isAsciiChar = true) :
    ∀ b, replaceNonAsciiAux b l = l := by
  induction l with
  | nil => intro b; rfl
  | cons c cs ih =>
    intro b
    simp only [List.all_cons, Bool.and_eq_true] at hall
    simp [replaceNonAsciiAux, hall.1, ih hall.2]

theorem collapseAux_true_head (l : List Char) :
    (collapseAux true l).head? ≠ some '_' := by
  induction l with
  | nil => simp [collapseAux]
  | cons c cs ih =>
    by_cases h : c = '_'
    · simpa [collapseAux, h] using ih
    · simp [collapseAux, h]

theorem collapseAux_chain (l : List Char) :
    ∀ b, NoAdjUnderscores (collapseAux b l) := by
  induction l with
  | nil =>
    intro b
    exact List.chain'_nil
  | cons c cs ih =>
    intro b
    by_cases h : c = '_'
    · subst h
      cases b
      · have hcol : collapseAux false ('_' :: cs) = '_' :: collapseAux true cs := by
          simp [collapseAux]
        rw [hcol]
        refine List.chain'_cons'.mpr ⟨?_, ih true⟩
        intro y hy hcontra
        apply collapseAux_true_head cs
        rw [Option.mem_def] at hy
        rw [hy, hcontra.2]
      · have hcol : collapseAux true ('_' :: cs) = collapseAux true cs := by
          simp [collapseAux]
        rw [hcol]
        exact ih true
    · have hcol : collapseAux b (c :: cs) = c :: collapseAux false cs := by
        simp [collapseAux, h]
      rw [hcol]
      refine List.chain'_cons'.mpr ⟨?_, ih false⟩
      intro y _ hcontra
      exact h hcontra.1

theorem collapseAux_id (l : List Char) :
    NoAdjUnderscores l →
      ∀ b, (b = true → l.head? ≠ some '_') → collapseAux b l = l := by
  induction l with
  | nil => intro _ b _; rfl
  | cons c cs ih =>
    intro hch b hb
    have hch' : (∀ y ∈ cs.head?, ¬(c = '_' ∧ y = '_')) ∧
        List.Chain' (fun a b => ¬(a = '_' ∧ b = '_')) cs := List.chain'_cons'.mp hch
    by_cases h : c = '_'
    · have hbf : b = false := by
        cases b
        · rfl
        · exact absurd (by simp [h]) (hb rfl)
      subst hbf
      subst h
      have hhead : cs.head? ≠ some '_' :=
        fun hcs => hch'.1 '_' (Option.mem_def.mpr hcs) ⟨rfl, rfl⟩
      have hcs' : collapseAux true cs = cs := ih hch'.2 true (fun _ => hhead)
      simp [collapseAux, hcs']
    · have hcs' : collapseAux false cs = cs := ih hch'.2 false (by simp)
      simp [collapseAux, h, hcs']

theorem collapseAux_all (p : Char → Bool) (hp : p '_' = true) (l : List Char) :
    l.all p = true → ∀ b, (collapseAux b l).all p = true := by
  induction l with
  | nil => intro _ b; rfl
  | cons c cs ih =>
    intro hall b
    simp only [List.all_cons, Bool.and_eq_true] at hall
    by_cases h : c = '_'
    · cases b
      · simp [collapseAux, h, hp, ih hall.2]
      · simp [collapseAux, h, ih hall.2]
    · simp [collapseAux, h, hall.1, ih hall.2]

theorem dropWhile_head_not (p : Char → Bool) (l : List Char) (c : Char)
    (h : (l.dropWhile p).head? = some c) : p c = false := by
  induction l with
  | nil => simp [List.dropWhile] at h
  | cons a as ih =>
    rw [List.dropWhile_cons] at h
    by_cases hp : p a = true
    · rw [if_pos hp] at h
      exact ih h
    · rw [if_neg (by simp [hp])] at h
      simp only [List.head?_cons, Option.some.injEq] at h
      simp only [Bool.not_eq_true] at hp
      rw [← h]
      exact hp

theorem dropWhile_id_of_head (p : Char → Bool) (l : List Char)
    (h : ∀ c, l.head? = some c → p c = false) : l.dropWhile p = l := by
  cases l with
  | nil => rfl
  | cons a as =>
    rw [List.dropWhile_cons]
    simp [h a rfl]

theorem exists_dropWhile_eq_drop (p : Char → Bool) (l : List Char) :
    ∃ n, l.dropWhile p = l.drop n := by
  induction l with
  | nil => exact ⟨0, rfl⟩
  | cons a as ih =>
    by_cases hp : p a = true
    · obtain ⟨n, hn⟩ := ih
      exact ⟨n + 1, by rw [List.dropWhile_cons, if_pos hp, hn]; rfl⟩
    · exact ⟨0, by rw [List.dropWhile_cons, if_neg (by simp [hp])]; rfl⟩

theorem stripRight_eq_take (m : List Char) :
    ∃ k, (m.reverse.dropWhile (fun c => c == '_')).reverse = m.take k := by
  obtain ⟨n, hn⟩ := exists_dropWhile_eq_drop (fun c => c == '_') m.reverse
  refine ⟨m.length - n, ?_⟩
  rw [hn, List.reverse_drop]
  simp

theorem head?_take_some (l : List Char) (k : Nat) (c : Char)
    (h : (l.take k).head? = some c) : l.head? = some c := by
  cases l <;> cases k <;> simp_all

theorem stripUnderscores_head (l : List Char) (c : Char)
    (h : (stripUnderscores l).head? = some c) : c ≠ '_' := by
  unfold stripUnderscores at h
  obtain ⟨k, hk⟩ := stripRight_eq_take (l.dropWhile (fun c => c == '_'))
  rw [hk] at h
  have h2 := head?_take_some _ _ _ h
  have h3 := dropWhile_head_not _ _ _ h2
  simpa using h3

theorem stripUnderscores_getLast (l : List Char) (c : Char)
    (h : (stripUnderscores l).getLast? = some c) : c ≠ '_' := by
  unfold stripUnderscores at h
  rw [List.getLast?_reverse] at h
  have h3 := dropWhile_head_not _ _ _ h
  simpa using h3

theorem stripUnderscores_chain (l : List Char) (h : NoAdjUnderscores l) :
    NoAdjUnderscores (stripUnderscores l) := by
  obtain ⟨n, hn⟩ := exists_dropWhile_eq_drop (fun c => c == '_') l
  have h1 : NoAdjUnderscores (l.dropWhile (fun c => c == '_')) := by
    rw [hn]
    exact h.drop n
  obtain ⟨k, hk⟩ := stripRight_eq_take (l.dropWhile (fun c => c == '_'))
  unfold stripUnderscores
  rw [hk]
  exact h1.take k

theorem stripUnderscores_all (p : Char → Bool) (l : List Char) (h : l.all p = true) :
    (stripUnderscores l).all p = true := by
  rw [List.all_eq_true] at h ⊢
  intro x hx
  apply h
  unfold stripUnderscores at hx
  rw [List.mem_reverse] at hx
  have hx2 : x ∈ (l.dropWhile (fun c => c == '_')).reverse :=
    (List.dropWhile_sublist _).subset hx
  rw [List.mem_reverse] at hx2
  exact (List.dropWhile_sublist _).subset hx2

theorem stripUnderscores_id (l : List Char)
    (h1 : l.head? ≠ some '_') (h2 : l.getLast? ≠ some '_') :
    stripUnderscores l = l := by
  have e1 : l.dropWhile (fun c => c == '_') = l :=
    dropWhile_id_of_head _ _ (fun c hc =>
      beq_eq_false_iff_ne.mpr (fun he => h1 (he ▸ hc)))
  have e2 : l.reverse.dropWhile (fun c => c == '_') = l.reverse :=
    dropWhile_id_of_head _ _ (fun c hc => by
      rw [List.head?_reverse] at hc
      exact beq_eq_false_iff_ne.mpr (fun he => h2 (he ▸ hc)))
  unfold stripUnderscores
  rw [e1, e2, List.reverse_reverse]

/-- C6: filename sanitization is idempotent; its output never has a leading,
trailing, or doubled underscore; and it is the identity exactly on
already-clean ASCII-only filenames. -/
theorem c6_sanitize_idempotent_clean (s : String) :
    _sanitize_filename_for_metadata (_sanitize_filename_for_metadata s)
      = _sanitize_filename_for_metadata s ∧
    NoAdjUnderscores (_sanitize_filename_for_metadata s).data ∧
    (_sanitize_filename_for_metadata s).data.head? ≠ some '_' ∧
    (_sanitize_filename_for_metadata s).data.getLast? ≠ some '_' ∧
    (s.data.all isAsciiChar = true → NoAdjUnderscores s.data →
      s.data.head? ≠ some '_' → s.data.getLast? ≠ some '_' →
      _sanitize_filename_for_metadata s = s) := by
  have ident : ∀ t : String, t.data.all isAsciiChar = true → NoAdjUnderscores t.data →
      t.data.head? ≠ some '_' → t.data.getLast? ≠ some '_' →
      _sanitize_filename_for_metadata t = t := by
    intro t ha hc hh hl
    unfold _sanitize_filename_for_metadata replaceNonAsciiRuns collapseUnderscoreRuns
    rw [replaceNonAsciiAux_id t.data ha false,
      collapseAux_id t.data hc false (by simp),
      stripUnderscores_id t.data hh hl]
  have hasc : (_sanitize_filename_for_metadata s).data.all isAsciiChar = true :=
    stripUnderscores_all _ _
      (collapseAux_all isAsciiChar (by decide) _
        (replaceNonAsciiAux_all_ascii s.data false) false)
  have hch : NoAdjUnderscores (_sanitize_filename_for_metadata s).data :=
    stripUnderscores_chain _ (collapseAux_chain _ false)
  have hh : (_sanitize_filename_for_metadata s).data.head? ≠ some '_' :=
    fun hcontra => (stripUnderscores_head _ _ hcontra) rfl
  have hl : (_sanitize_filename_for_metadata s).data.getLast? ≠ some '_' :=
    fun hcontra => (stripUnderscores_getLast _ _ hcontra) rfl
  exact ⟨ident _ hasc hch hh hl, hch, hh, hl, ident s⟩

/-- C6 (witness): idempotence evaluated on a concrete messy filename, and
identity evaluated on a concrete already-clean ASCII filename. -/
theorem c6_witness :
    _sanitize_filename_for_metadata "abc_def.mp3" = "abc_def.mp3" ∧
    _sanitize_filename_for_metadata (_sanitize_filename_for_metadata "_héllo__wörld_")
      = _sanitize_filename_for_metadata "_héllo__wörld_" := by
  constructor
  · refine (c6_sanitize_idempotent_clean "abc_def.mp3").2.2.2.2
      (by decide) ?_ (by decide) (by decide)
    have hdata : "abc_def.mp3".data
        = ['a', 'b', 'c', '_', 'd', 'e', 'f', '.', 'm', 'p', '3'] := rfl
    rw [NoAdjUnderscores, hdata]
    simp [List.chain'_cons]
  · exact (c6_sanitize_idempotent_clean "_héllo__wörld_").1
